import Mathlib

/-!
Shallow embedding of the claim-relevant parts of the `low-code-taro`
repository:

* the cart store (`src/stores/tabbar-selected.ts`, second module: the
  `cart` Pinia store) — line items, `addToCart`, `removeFromCart`,
  `updateQuantity`, selection toggling and the derived `summary`;
* the product store (`src/stores/index.ts`, second module: the `product`
  Pinia store) — `filteredProducts` (conjunctive filters plus sort);
* the HTTP wrapper (`HttpRequest` class) — interceptor chains, `request`,
  default interceptors, and the loading-indicator side effects.

Modelling conventions:
* JavaScript numbers are modelled as `Int` (every claim only uses ordered
  ring operations, which the embedding preserves; floats are not needed by
  any claim).
* Optional (`?:`) fields become `Option`; JavaScript truthiness tests on
  numbers (`if (x)`) are `x ≠ 0` on present values, and on strings `x ≠ ""`.
* `Date.now()` (used only to mint a cart-line id) is an explicit `newId`
  argument.
* Reactive store state becomes a value (`CartState`) and actions become
  functions on it; actions that `throw` return `Except String`.
-/

namespace LowCodeTaro

/-- Truthiness of an optional JS number: defined and nonzero. -/
def jsTruthyNum (o : Option Int) : Bool :=
  match o with
  | none => false
  | some n => n ≠ 0

/-- Truthiness of an optional JS string: defined and nonempty. -/
def jsTruthyStr (o : Option String) : Bool :=
  match o with
  | none => false
  | some s => s ≠ ""

/-- JS `String.prototype.includes` (for the nonempty needles used by the
source): `sub` occurs as a substring of `s`. -/
def jsIncludes (s sub : String) : Bool :=
  (s.splitOn sub).length ≠ 1

/-- JS `Array.prototype.find`: first element satisfying `p`. -/
def jsFind {α : Type} (p : α → Bool) : List α → Option α
  | [] => none
  | a :: l => if p a then some a else jsFind p l

/-- The effect of `findIndex` followed by an in-place mutation of the
element at the found index: rewrite the first element satisfying `p` with
`f`, leave the list alone when none matches. -/
def jsSetFirst {α : Type} (p : α → Bool) (f : α → α) : List α → List α
  | [] => []
  | a :: l => if p a then f a :: l else a :: jsSetFirst p f l

/-- The effect of `findIndex` followed by `splice(idx, 1)`: drop the first
element satisfying `p`, leave the list alone when none matches. -/
def jsRemoveFirst {α : Type} (p : α → Bool) : List α → List α
  | [] => []
  | a :: l => if p a then l else a :: jsRemoveFirst p l

/-- Structure `CartItem` of `src/stores/tabbar-selected.ts`. -/
structure CartItem where
  id : Int
  productId : Int
  name : String
  image : String
  price : Int
  originalPrice : Option Int
  quantity : Int
  selected : Bool
  skuId : Option Int
  skuName : Option String
  stock : Int
  attributes : Option (List (String × String))
  deriving DecidableEq, Repr

/-- Structure `CartSummary` of `src/stores/tabbar-selected.ts`. -/
structure CartSummary where
  totalCount : Int
  selectedCount : Int
  totalPrice : Int
  selectedPrice : Int
  totalSavings : Int
  deriving DecidableEq, Repr

/-- The reactive state of the `cart` store: `items` and the `selectAll`
flag (initially `[]` and `false`). -/
structure CartState where
  items : List CartItem
  selectAll : Bool
  deriving DecidableEq, Repr

/-- The `Omit` of `CartItem` without id, quantity and selected: the `product`
argument of `addToCart`. -/
structure ProductInput where
  productId : Int
  name : String
  image : String
  price : Int
  originalPrice : Option Int
  skuId : Option Int
  skuName : Option String
  stock : Int
  attributes : Option (List (String × String))
  deriving DecidableEq, Repr

/-- The new line built by `addToCart`:
`{ id: Date.now(), ...product, quantity, selected: true, skuId, skuName }`
(the `skuId`/`skuName` parameters override the spread fields). -/
def mkNewItem (newId : Int) (product : ProductInput) (quantity : Int)
    (skuId : Option Int) (skuName : Option String) : CartItem :=
  { id := newId
    productId := product.productId
    name := product.name
    image := product.image
    price := product.price
    originalPrice := product.originalPrice
    quantity := quantity
    selected := true
    skuId := skuId
    skuName := skuName
    stock := product.stock
    attributes := product.attributes }

/-- Action `addToCart` of the cart store.  Looks for a line with the same
`productId` and `skuId`; if found, grows its quantity, throwing
`库存不足` ("insufficient stock") when the new quantity would exceed that
line's stock; otherwise appends a fresh line (`selected = true`), with no
stock check.  `selectAll` is not touched. -/
def addToCart (s : CartState) (product : ProductInput) (quantity : Int)
    (skuId : Option Int) (skuName : Option String) (newId : Int) :
    Except String CartState :=
  let sameLine := fun (item : CartItem) =>
    item.productId == product.productId && item.skuId == skuId
  match jsFind sameLine s.items with
  | some existingItem =>
    let newQuantity := existingItem.quantity + quantity
    if newQuantity ≤ existingItem.stock then
      let newItems := jsSetFirst sameLine
        (fun item => { item with quantity := item.quantity + quantity })
        s.items
      Except.ok { s with items := newItems }
    else
      Except.error ("库存不足")
  | none =>
    let newItem := mkNewItem newId product quantity skuId skuName
    Except.ok { s with items := s.items ++ [newItem] }

/-- Action `removeFromCart`: drops the first line whose `id` matches (no-op when
absent). -/
def removeFromCart (s : CartState) (itemId : Int) : CartState :=
  { s with items := jsRemoveFirst (fun item => item.id == itemId) s.items }

/-- Action `updateQuantity`: on the first line whose `id` matches, a quantity
`≤ 0` removes the line, a quantity within stock replaces it, and a
quantity above stock throws; no-op when the id is absent. -/
def updateQuantity (s : CartState) (itemId : Int) (quantity : Int) :
    Except String CartState :=
  match jsFind (fun item => item.id == itemId) s.items with
  | some item =>
    if quantity ≤ 0 then
      Except.ok (removeFromCart s itemId)
    else if quantity ≤ item.stock then
      let newItems := jsSetFirst (fun it => it.id == itemId)
        (fun it => { it with quantity := quantity }) s.items
      Except.ok { s with items := newItems }
    else
      Except.error ("库存不足")
  | none => Except.ok s

/-- Helper `updateSelectAllState`: recomputes `selectAll` as the AND over all
items, `false` on an empty cart. -/
def updateSelectAllState (s : CartState) : CartState :=
  if s.items.length = 0 then
    { s with selectAll := false }
  else
    { s with selectAll := s.items.all (fun item => item.selected) }

/-- Action `toggleItemSelection`: sets (or flips) the `selected` flag of the
first line whose `id` matches, then recomputes `selectAll`. -/
def toggleItemSelection (s : CartState) (itemId : Int)
    (selected : Option Bool) : CartState :=
  let s1 :=
    match jsFind (fun item => item.id == itemId) s.items with
    | some _ =>
      let newItems := jsSetFirst (fun it => it.id == itemId)
        (fun it => { it with selected := selected.getD (!it.selected) })
        s.items
      { s with items := newItems }
    | none => s
  updateSelectAllState s1

/-- Action `toggleSelectAll`: sets (or flips) `selectAll` and forces every line's
`selected` flag to the new value. -/
def toggleSelectAll (s : CartState) (selected : Option Bool) : CartState :=
  let newSelectAll := selected.getD (!s.selectAll)
  { items := s.items.map (fun item => { item with selected := newSelectAll })
    selectAll := newSelectAll }

/-- Action `clearCart`. -/
def clearCart (_s : CartState) : CartState :=
  { items := [], selectAll := false }

/-- Action `clearSelectedItems`: keeps the unselected lines, then recomputes
`selectAll`. -/
def clearSelectedItems (s : CartState) : CartState :=
  let kept := s.items.filter (fun item => !item.selected)
  updateSelectAllState { s with items := kept }

/-- The `summary` computed property (reduce-based, as in the source).  The
savings branch mirrors `if (item.originalPrice)`: a present but zero
original price is falsy in JS and contributes nothing. -/
def summary (items : List CartItem) : CartSummary :=
  let totalCount := items.foldl (fun sum item => sum + item.quantity) 0
  let selectedItems := items.filter (fun item => item.selected)
  let selectedCount :=
    selectedItems.foldl (fun sum item => sum + item.quantity) 0
  let selectedPrice :=
    selectedItems.foldl (fun sum item => sum + item.price * item.quantity) 0
  let totalPrice :=
    items.foldl (fun sum item => sum + item.price * item.quantity) 0
  let totalSavings :=
    selectedItems.foldl (fun sum item =>
      if jsTruthyNum item.originalPrice then
        sum + (item.originalPrice.getD 0 - item.price) * item.quantity
      else
        sum) 0
  { totalCount := totalCount
    selectedCount := selectedCount
    totalPrice := totalPrice
    selectedPrice := selectedPrice
    totalSavings := totalSavings }

/-- Truthiness of an optional JS boolean: defined and `true`. -/
def jsTruthyBool (o : Option Bool) : Bool :=
  o.getD false

/-- Structure `Product` of `src/stores/index.ts` (the product store). -/
structure Product where
  id : Int
  name : String
  price : Int
  originalPrice : Option Int
  image : String
  images : Option (List String)
  description : Option String
  categoryId : Int
  categoryName : String
  sales : Int
  stock : Int
  rating : Int
  commentCount : Int
  tags : Option (List String)
  specs : Option (List (String × List String))
  isHot : Option Bool
  isNew : Option Bool
  isRecommend : Option Bool
  deriving DecidableEq, Repr

/-- The `sortBy` union type of `SearchFilters`. -/
inductive SortBy where
  | default
  | price_asc
  | price_desc
  | sales
  | rating
  deriving DecidableEq, Repr

/-- Structure `SearchFilters` of the product store. -/
structure SearchFilters where
  keyword : Option String := none
  categoryId : Option Int := none
  minPrice : Option Int := none
  maxPrice : Option Int := none
  sortBy : Option SortBy := none
  tags : Option (List String) := none
  deriving DecidableEq, Repr

/-- One comparator-directed insertion into an already sorted list; `x`
goes before the first element `y` with `cmp x y ≤ 0`, so ties keep the
earlier element first (the stable order the engine's `Array.sort`
guarantees). -/
def jsInsert {α : Type} (cmp : α → α → Int) (x : α) : List α → List α
  | [] => [x]
  | y :: l => if cmp x y ≤ 0 then x :: y :: l else y :: jsInsert cmp x l

/-- JS `Array.prototype.sort` with comparator `cmp`, as a stable
insertion sort. -/
def jsSort {α : Type} (cmp : α → α → Int) : List α → List α
  | [] => []
  | x :: l => jsInsert cmp x (jsSort cmp l)

/-- Comparator `(a, b) => a.price - b.price`. -/
def cmpPriceAsc (a b : Product) : Int := a.price - b.price

/-- Comparator `(a, b) => b.price - a.price`. -/
def cmpPriceDesc (a b : Product) : Int := b.price - a.price

/-- Comparator `(a, b) => b.sales - a.sales`. -/
def cmpSalesDesc (a b : Product) : Int := b.sales - a.sales

/-- Comparator `(a, b) => b.rating - a.rating`. -/
def cmpRatingDesc (a b : Product) : Int := b.rating - a.rating

/-- The default composite comparator: recommended first, then hot, then
new, ties keep relative order. -/
def cmpDefault (a b : Product) : Int :=
  if jsTruthyBool a.isRecommend && !jsTruthyBool b.isRecommend then -1
  else if !jsTruthyBool a.isRecommend && jsTruthyBool b.isRecommend then 1
  else if jsTruthyBool a.isHot && !jsTruthyBool b.isHot then -1
  else if !jsTruthyBool a.isHot && jsTruthyBool b.isHot then 1
  else if jsTruthyBool a.isNew && !jsTruthyBool b.isNew then -1
  else if !jsTruthyBool a.isNew && jsTruthyBool b.isNew then 1
  else 0

/-- The `switch (filters.sortBy)` of `filteredProducts`; an absent or
`'default'` sort key runs the composite comparator. -/
def applySort (sortBy : Option SortBy) (l : List Product) : List Product :=
  match sortBy with
  | some SortBy.price_asc => jsSort cmpPriceAsc l
  | some SortBy.price_desc => jsSort cmpPriceDesc l
  | some SortBy.sales => jsSort cmpSalesDesc l
  | some SortBy.rating => jsSort cmpRatingDesc l
  | _ => jsSort cmpDefault l

/-- The keyword test applied per product (case-insensitive substring
match on the name, or on the description when present). -/
def keywordTest (k : String) (p : Product) : Bool :=
  jsIncludes p.name.toLower k.toLower ||
    (match p.description with
     | some d => jsIncludes d.toLower k.toLower
     | none => false)

/-- The tag test applied per product: some product tag occurs among the
filter tags (products without tags never pass). -/
def tagTest (ts : List String) (p : Product) : Bool :=
  match p.tags with
  | some pts => pts.any (fun tag => ts.contains tag)
  | none => false

/-- The guarded keyword filter (`if (filters.keyword) …`): an absent or
empty (falsy) keyword leaves the list alone. -/
def keywordStage (keyword : Option String) (l : List Product) :
    List Product :=
  match keyword with
  | some k => if k = "" then l else l.filter (keywordTest k)
  | none => l

/-- The guarded category filter (`if (filters.categoryId) …`): an absent
or zero (falsy) category id leaves the list alone. -/
def categoryStage (categoryId : Option Int) (l : List Product) :
    List Product :=
  match categoryId with
  | some c => if c = 0 then l else l.filter (fun p => p.categoryId == c)
  | none => l

/-- The guarded lower price bound (`filters.minPrice !== undefined`). -/
def minPriceStage (minPrice : Option Int) (l : List Product) :
    List Product :=
  match minPrice with
  | some mn => l.filter (fun p => p.price ≥ mn)
  | none => l

/-- The guarded upper price bound (`filters.maxPrice !== undefined`). -/
def maxPriceStage (maxPrice : Option Int) (l : List Product) :
    List Product :=
  match maxPrice with
  | some mx => l.filter (fun p => p.price ≤ mx)
  | none => l

/-- The guarded tag filter (`filters.tags && filters.tags.length > 0`). -/
def tagsStage (tags : Option (List String)) (l : List Product) :
    List Product :=
  match tags with
  | some ts => if ts.length > 0 then l.filter (tagTest ts) else l
  | none => l

/-- The `filteredProducts` computed property of the product store, as a
function of the product list and the filter criteria: the four
conditional filter stages (keyword, category, price bounds, tags) in
source order, then the sort. -/
def filteredProducts (l : List Product) (filters : SearchFilters) :
    List Product :=
  applySort filters.sortBy
    (tagsStage filters.tags
      (maxPriceStage filters.maxPrice
        (minPriceStage filters.minPrice
          (categoryStage filters.categoryId
            (keywordStage filters.keyword l)))))

/-- Dynamic (`any`-typed) values flowing through the request pipeline:
request/response bodies, raw transport responses (`{statusCode, data}`),
`Error` objects, platform failures (`{errMsg}`), and the normalized
`{message, error}` rejection built by the default error interceptor. -/
inductive JSVal where
  | undef : JSVal
  | num : Int → JSVal
  | str : String → JSVal
  | resp : Int → JSVal → JSVal
  | jsError : String → JSVal
  | errMsgObj : String → JSVal
  | rejected : String → JSVal → JSVal
  deriving DecidableEq, Repr

/-- The `.message` property of a dynamic value (`""` stands for an
absent/undefined property, which is falsy). -/
def jsMessage : JSVal → String
  | JSVal.jsError m => m
  | JSVal.rejected m _ => m
  | _ => ""

/-- JS object spread `{...a, ...b}` on string-keyed records: `a`'s keys in
order with `b`'s overrides, then `b`'s remaining keys. -/
def jsMergeObj (a b : List (String × String)) :
    List (String × String) :=
  a.map (fun kv =>
    match b.find? (fun kv2 => kv2.fst == kv.fst) with
    | some kv2 => (kv.fst, kv2.snd)
    | none => kv) ++
  b.filter (fun kv2 => (a.find? (fun kv => kv.fst == kv2.fst)).isNone)

/-- Structure `RequestConfig` after merging with the instance defaults: every field
carries a value. -/
structure RequestConfig where
  url : String
  method : String
  data : JSVal
  header : List (String × String)
  timeout : Int
  showLoading : Bool
  loadingText : Option String
  showError : Bool
  needToken : Bool
  deriving DecidableEq, Repr

/-- A `RequestConfig` as a caller passes it to `request`: only `url` is
required. -/
structure UserConfig where
  url : String
  method : Option String := none
  data : Option JSVal := none
  header : Option (List (String × String)) := none
  timeout : Option Int := none
  showLoading : Option Bool := none
  loadingText : Option String := none
  showError : Option Bool := none
  needToken : Option Bool := none
  deriving DecidableEq, Repr

/-- A request interceptor: transforms the config or rejects. -/
def RequestInterceptor : Type := RequestConfig → Except JSVal RequestConfig

/-- A response interceptor: transforms the response value or rejects. -/
def ResponseInterceptor : Type := JSVal → Except JSVal JSVal

/-- An error interceptor: either return value becomes the next error. -/
def ErrorInterceptor : Type := JSVal → Except JSVal JSVal

/-- The `HttpRequest` instance state: base URL and the three registered
interceptor lists.  (`setDefaultConfig` is never called in the
repository, so `defaultConfig` keeps its initial literal, inlined in
`mergeConfig`.) -/
structure HttpRequest where
  baseURL : String
  requestInterceptors : List RequestInterceptor
  responseInterceptors : List ResponseInterceptor
  errorInterceptors : List ErrorInterceptor

/-- Method `addRequestInterceptor`: appends, so interceptors run in registration
order. -/
def addRequestInterceptor (h : HttpRequest) (f : RequestInterceptor) :
    HttpRequest :=
  { h with requestInterceptors := h.requestInterceptors ++ [f] }

/-- The merge at the top of `request`:
`{...this.defaultConfig, ...config, url: this.baseURL + config.url}` with
the initial `defaultConfig` literal. -/
def mergeConfig (h : HttpRequest) (c : UserConfig) : RequestConfig :=
  { url := h.baseURL ++ c.url
    method := c.method.getD ("GET")
    data := c.data.getD JSVal.undef
    header := c.header.getD []
    timeout := c.timeout.getD 10000
    showLoading := c.showLoading.getD false
    loadingText := c.loadingText
    showError := c.showError.getD true
    needToken := c.needToken.getD true }

/-- Method `executeRequestInterceptors`: fold the config through the list,
stopping at the first rejection. -/
def executeRequestInterceptors :
    List RequestInterceptor → RequestConfig → Except JSVal RequestConfig
  | [], c => Except.ok c
  | f :: fs, c =>
    match f c with
    | Except.ok c2 => executeRequestInterceptors fs c2
    | Except.error e => Except.error e

/-- Method `executeResponseInterceptors`: same shape over response values. -/
def executeResponseInterceptors :
    List ResponseInterceptor → JSVal → Except JSVal JSVal
  | [], r => Except.ok r
  | f :: fs, r =>
    match f r with
    | Except.ok r2 => executeResponseInterceptors fs r2
    | Except.error e => Except.error e

/-- Method `executeErrorInterceptors`: each interceptor runs inside a
`try/catch`, so a thrown value simply becomes the next error. -/
def executeErrorInterceptors : List ErrorInterceptor → JSVal → JSVal
  | [], e => e
  | f :: fs, e =>
    executeErrorInterceptors fs
      (match f e with
       | Except.ok v => v
       | Except.error v => v)

/-- The default request interceptor: best-effort bearer token (the
storage read result is the `token` parameter; a failed or falsy read is
swallowed), then default `Content-Type` header. -/
def defaultRequestInterceptor (token : Option String) :
    RequestInterceptor :=
  fun config =>
    let header1 :=
      if config.needToken then
        match token with
        | some t =>
          if t ≠ "" then
            jsMergeObj config.header [("Authorization", "Bearer " ++ t)]
          else config.header
        | none => config.header
      else config.header
    let header2 := jsMergeObj [("Content-Type", "application/json")] header1
    Except.ok { config with header := header2 }

/-- The default response interceptor: a status in `[200, 300)` yields the
body, anything else throws `HTTP Error: <status>`. -/
def defaultResponseInterceptor : ResponseInterceptor :=
  fun response =>
    match response with
    | JSVal.resp statusCode d =>
      if 200 ≤ statusCode ∧ statusCode < 300 then
        Except.ok d
      else
        Except.error (JSVal.jsError ("HTTP Error: " ++ toString statusCode))
    | _ => Except.error (JSVal.jsError ("HTTP Error: undefined"))

/-- The default error interceptor: derive a user-facing message from
`errMsg` (timeout/fail) or `message`, and reject with
`{message, error}`. -/
def defaultErrorInterceptor : ErrorInterceptor :=
  fun error =>
    let message :=
      match error with
      | JSVal.errMsgObj em =>
        if em ≠ "" then
          (if jsIncludes em ("timeout") then ("请求超时，请检查网络连接")
           else if jsIncludes em ("fail") then ("网络连接失败，请检查网络设置")
           else ("网络请求失败"))
        else ("网络请求失败")
      | e =>
        if jsMessage e ≠ "" then jsMessage e else ("网络请求失败")
    Except.error (JSVal.rejected message error)

/-- Constructor `new HttpRequest(baseURL)` (plus the storage environment): the
constructor installs exactly the three default interceptors. -/
def mkHttpRequest (baseURL : String) (token : Option String) :
    HttpRequest :=
  { baseURL := baseURL
    requestInterceptors := [defaultRequestInterceptor token]
    responseInterceptors := [defaultResponseInterceptor]
    errorInterceptors := [defaultErrorInterceptor] }

/-- Observable UI side effects of `request`, in order of occurrence. -/
inductive Event where
  | show : Event
  | hide : Event
  | call : RequestConfig → Event
  | toast : String → Event
  deriving DecidableEq, Repr

/-- The `catch` block of `request`: run the error interceptors, hide the
loading indicator when the *merged* config asked for one, toast when the
merged config wants errors shown and the processed error has a truthy
message, and re-throw the processed error. -/
def requestCatch (h : HttpRequest) (merged : RequestConfig) (e : JSVal) :
    JSVal × List Event :=
  let processedError := executeErrorInterceptors h.errorInterceptors e
  let hideEvents := if merged.showLoading then [Event.hide] else []
  let toastEvents :=
    if merged.showError && jsMessage processedError ≠ "" then
      [Event.toast (jsMessage processedError)]
    else []
  (processedError, hideEvents ++ toastEvents)

/-- Method `HttpRequest.request`: merge the config, run the request interceptor
chain, show the loading indicator when the processed config asks for one,
call the transport, hide the indicator, run the response interceptor
chain; any rejection lands in the shared `catch` block.  The second
component records the side effects (`show`/`hide`/transport
`call`/`toast`) in order. -/
def request (h : HttpRequest)
    (transport : RequestConfig → Except JSVal JSVal) (config : UserConfig) :
    Except JSVal JSVal × List Event :=
  let mergedConfig := mergeConfig h config
  match executeRequestInterceptors h.requestInterceptors mergedConfig with
  | Except.error e =>
    let r := requestCatch h mergedConfig e
    (Except.error r.fst, r.snd)
  | Except.ok processedConfig =>
    let showEvents := if processedConfig.showLoading then [Event.show] else []
    match transport processedConfig with
    | Except.error e =>
      let r := requestCatch h mergedConfig e
      (Except.error r.fst, showEvents ++ [Event.call processedConfig] ++ r.snd)
    | Except.ok response =>
      let hideEvents :=
        if processedConfig.showLoading then [Event.hide] else []
      match executeResponseInterceptors h.responseInterceptors response with
      | Except.ok processedResponse =>
        (Except.ok processedResponse,
         showEvents ++ [Event.call processedConfig] ++ hideEvents)
      | Except.error e =>
        let r := requestCatch h mergedConfig e
        (Except.error r.fst,
         showEvents ++ [Event.call processedConfig] ++ hideEvents ++ r.snd)

/-- One UI event's effect on the loading indicator's visibility. -/
def loadingStep (v : Bool) (e : Event) : Bool :=
  match e with
  | Event.show => true
  | Event.hide => false
  | _ => v

/-- Whether the loading indicator is visible after a sequence of UI
events (it starts hidden). -/
def loadingVisible (evs : List Event) : Bool :=
  evs.foldl loadingStep false

/-!  Specification-side definitions: restatements of the claims' words,
to be compared with the source-derived functions above. -/

/-- Spec: total item count — the sum of quantities over all items. -/
def claimedTotalCount (items : List CartItem) : Int :=
  (items.map (fun item => item.quantity)).sum

/-- Spec: selected item count — the same sum over selected items. -/
def claimedSelectedCount (items : List CartItem) : Int :=
  ((items.filter (fun item => item.selected)).map
    (fun item => item.quantity)).sum

/-- Spec: total price — the sum of `price × quantity` over all items. -/
def claimedTotalPrice (items : List CartItem) : Int :=
  (items.map (fun item => item.price * item.quantity)).sum

/-- Spec: selected price — the same sum restricted to selected items. -/
def claimedSelectedPrice (items : List CartItem) : Int :=
  ((items.filter (fun item => item.selected)).map
    (fun item => item.price * item.quantity)).sum

/-- The savings exactly as claim C3 words them: the sum over selected
items *with an originalPrice present* of `(originalPrice − price) ×
quantity`. -/
def claimedSavingsPresent (items : List CartItem) : Int :=
  ((items.filter (fun item => item.selected)).map
    (fun item =>
      match item.originalPrice with
      | some o => (o - item.price) * item.quantity
      | none => 0)).sum

/-- The amended savings: only a *nonzero* original price (the truthy
case) contributes. -/
def claimedSavingsNonzero (items : List CartItem) : Int :=
  ((items.filter (fun item => item.selected)).map
    (fun item =>
      match item.originalPrice with
      | some o => if o = 0 then 0 else (o - item.price) * item.quantity
      | none => 0)).sum

/-- Spec: the derived all-selected value — the AND of the selected flags,
`false` on an empty cart. -/
def claimedSelectAll (items : List CartItem) : Bool :=
  !items.isEmpty && items.all (fun item => item.selected)

/-- Claim C5's invariant: the stored flag agrees with the derived
value. -/
def selectAllInvariant (s : CartState) : Prop :=
  s.selectAll = claimedSelectAll s.items

/-- Claim C4 at one state, id and quantity: a non-positive quantity
removes the line (lookup afterwards is absent), a quantity within the
line's stock replaces it, a quantity above stock is the domain error
(the functional model returns no new state then, so the store keeps the
old one). -/
def claimC4At (s : CartState) (itemId : Int) (quantity : Int) : Prop :=
  ∀ it, jsFind (fun item => item.id == itemId) s.items = some it →
    (quantity ≤ 0 →
      ∃ s2, updateQuantity s itemId quantity = Except.ok s2 ∧
        jsFind (fun item => item.id == itemId) s2.items = none) ∧
    (0 < quantity → quantity ≤ it.stock →
      ∃ s2, updateQuantity s itemId quantity = Except.ok s2 ∧
        jsFind (fun item => item.id == itemId) s2.items =
          some { it with quantity := quantity }) ∧
    (0 < quantity → it.stock < quantity →
      updateQuantity s itemId quantity = Except.error ("库存不足"))

/-- A run of `addToCart` calls sharing one product+variant identity,
stopping at the first rejection: final state, plus the index of the
rejecting call if any. -/
def runAdds (product : ProductInput) (skuId : Option Int)
    (skuName : Option String) : CartState → List Int → CartState × Option Nat
  | s, [] => (s, none)
  | s, q :: qs =>
    match addToCart s product q skuId skuName 0 with
    | Except.ok s2 =>
      let r := runAdds product skuId skuName s2 qs
      (r.fst, r.snd.map Nat.succ)
    | Except.error _ => (s, some 0)

/-- Quantity of the cart's (only) line, `0` when empty. -/
def firstLineQty (s : CartState) : Int :=
  match s.items with
  | [] => 0
  | item :: _ => item.quantity

/-- Index of the first call at which the running total (started at
`acc`) would exceed `stock`. -/
def firstExceedFrom (stock acc : Int) : List Int → Option Nat
  | [] => none
  | q :: qs =>
    if stock < acc + q then some 0
    else (firstExceedFrom stock (acc + q) qs).map Nat.succ

/-- Claim C2 at one product identity and quantity sequence, from the
empty cart: either the line ends at the sum of all requested quantities,
or the call at which the running total *first* exceeds stock is the one
that rejects, leaving the cart as it was before that call. -/
def claimC2 (product : ProductInput) (skuId : Option Int)
    (skuName : Option String) (qs : List Int) : Prop :=
  let r := runAdds product skuId skuName { items := [], selectAll := false } qs
  firstLineQty r.fst = qs.sum ∨
  ∃ k, firstExceedFrom product.stock 0 qs = some k ∧
    r.snd = some k ∧
    r.fst = (runAdds product skuId skuName
      { items := [], selectAll := false } (qs.take k)).fst

/-- Claim C7 at one product list: ascending price sort, reversed, equals
descending price sort. -/
def claimC7 (l : List Product) : Prop :=
  (jsSort cmpPriceAsc l).reverse = jsSort cmpPriceDesc l

/-- The keyword criterion as a per-product predicate (an absent or falsy
keyword always passes). -/
def keywordPred (f : SearchFilters) (p : Product) : Bool :=
  match f.keyword with
  | some k => if k = "" then true else keywordTest k p
  | none => true

/-- The category criterion as a per-product predicate. -/
def categoryPred (f : SearchFilters) (p : Product) : Bool :=
  match f.categoryId with
  | some c => if c = 0 then true else p.categoryId == c
  | none => true

/-- The lower price bound as a per-product predicate. -/
def minPricePred (f : SearchFilters) (p : Product) : Bool :=
  match f.minPrice with
  | some mn => p.price ≥ mn
  | none => true

/-- The upper price bound as a per-product predicate. -/
def maxPricePred (f : SearchFilters) (p : Product) : Bool :=
  match f.maxPrice with
  | some mx => p.price ≤ mx
  | none => true

/-- The tag criterion as a per-product predicate. -/
def tagsPred (f : SearchFilters) (p : Product) : Bool :=
  match f.tags with
  | some ts => if ts.length > 0 then tagTest ts p else true
  | none => true

/-- Left-biased choice of optional criteria. -/
def mergeOpt {α : Type} : Option α → Option α → Option α
  | some a, _ => some a
  | none, b => b

/-- The filter object carrying the criteria of both `f` and `g`. -/
def mergeFilters (f g : SearchFilters) : SearchFilters :=
  { keyword := mergeOpt f.keyword g.keyword
    categoryId := mergeOpt f.categoryId g.categoryId
    minPrice := mergeOpt f.minPrice g.minPrice
    maxPrice := mergeOpt f.maxPrice g.maxPrice
    sortBy := mergeOpt f.sortBy g.sortBy
    tags := mergeOpt f.tags g.tags }

/-- Two filter objects describe *different* criteria (each criterion is
set in at most one of them), so that `mergeFilters` really is "applying
the two filters together". -/
def MergeableFilters (f g : SearchFilters) : Prop :=
  (f.keyword = none ∨ g.keyword = none) ∧
  (f.categoryId = none ∨ g.categoryId = none) ∧
  (f.minPrice = none ∨ g.minPrice = none) ∧
  (f.maxPrice = none ∨ g.maxPrice = none) ∧
  (f.tags = none ∨ g.tags = none)

/-- A request interceptor that always succeeds with a pure transform. -/
def pureRequestInterceptor (g : RequestConfig → RequestConfig) :
    RequestInterceptor :=
  fun c => Except.ok (g c)

/-!  Concrete fixtures for counterexamples and witnesses. -/

/-- A plain product input (stock 5). -/
def sampleProduct : ProductInput :=
  { productId := 1, name := "样品", image := "", price := 10,
    originalPrice := none, skuId := none, skuName := none, stock := 5,
    attributes := none }

/-- Cart line A of the spec's summary example: price 10, quantity 2,
selected. -/
def itemA : CartItem :=
  { id := 1, productId := 1, name := "A", image := "", price := 10,
    originalPrice := none, quantity := 2, selected := true, skuId := none,
    skuName := none, stock := 5, attributes := none }

/-- Cart line B of the spec's summary example: price 20, quantity 1,
selected. -/
def itemB : CartItem :=
  { id := 2, productId := 2, name := "B", image := "", price := 20,
    originalPrice := none, quantity := 1, selected := true, skuId := none,
    skuName := none, stock := 1, attributes := none }

/-- A selected line whose `originalPrice` is present but zero (falsy). -/
def itemZeroOrig : CartItem :=
  { id := 3, productId := 3, name := "C", image := "", price := 1,
    originalPrice := some 0, quantity := 1, selected := true, skuId := none,
    skuName := none, stock := 5, attributes := none }

/-- Two distinct lines sharing the cart-line id 7. -/
def itemDup1 : CartItem := { itemA with id := 7 }

/-- Second line with the duplicated id 7. -/
def itemDup2 : CartItem := { itemB with id := 7 }

/-- Base product fixture for the product store. -/
def prodBase : Product :=
  { id := 0, name := "P", price := 10, originalPrice := none, image := "",
    images := none, description := none, categoryId := 1,
    categoryName := "c", sales := 0, stock := 0, rating := 0,
    commentCount := 0, tags := none, specs := none, isHot := none,
    isNew := none, isRecommend := none }

/-- Product with price 10. -/
def prodA : Product := { prodBase with id := 1 }

/-- A second product with the same price 10. -/
def prodB : Product := { prodBase with id := 2 }

/-- Product with price 20. -/
def prodC : Product := { prodBase with id := 3, price := 20 }

/-!  Helper lemmas. -/

theorem foldl_add_map {α : Type} (f : α → Int) (l : List α) (init : Int) :
    l.foldl (fun sum a => sum + f a) init = init + (l.map f).sum := by
  induction l generalizing init with
  | nil => simp
  | cons a l ih => simp [ih, add_assoc]

theorem all_const_of_ne_nil {α : Type} (l : List α) (hl : l ≠ []) (v : Bool) :
    l.all (fun _ => v) = v := by
  cases l with
  | nil => exact absurd rfl hl
  | cons a l => cases v <;> simp

/-!  Claim C3: the summary components. -/

/-- C3 (counterexample): the savings formula of the claim counts every
*present* original price, but the code's truthiness test skips a zero
one, so the two disagree on a selected line with `originalPrice = 0`. -/
theorem summary_savings_claim_false :
    (summary [itemZeroOrig]).totalSavings ≠
      claimedSavingsPresent [itemZeroOrig] := by
  decide

/-- C3 (amended): every summary component matches its specification sum,
with savings restricted to selected items with a *nonzero* original
price; the spec's concrete two-item example also holds. -/
theorem summary_components_spec (items : List CartItem) :
    (summary items).totalCount = claimedTotalCount items ∧
    (summary items).selectedCount = claimedSelectedCount items ∧
    (summary items).totalPrice = claimedTotalPrice items ∧
    (summary items).selectedPrice = claimedSelectedPrice items ∧
    (summary items).totalSavings = claimedSavingsNonzero items ∧
    summary [itemA, itemB] =
      { totalCount := 3, selectedCount := 3, totalPrice := 40,
        selectedPrice := 40, totalSavings := 0 } := by
  refine ⟨?_, ?_, ?_, ?_, ?_, by decide⟩
  · simp [summary, claimedTotalCount, foldl_add_map]
  · simp [summary, claimedSelectedCount, foldl_add_map]
  · simp [summary, claimedTotalPrice, foldl_add_map]
  · simp [summary, claimedSelectedPrice, foldl_add_map]
  · have hfun :
        (fun (sum : Int) (item : CartItem) =>
          if jsTruthyNum item.originalPrice then
            sum + (item.originalPrice.getD 0 - item.price) * item.quantity
          else sum) =
        (fun (sum : Int) (item : CartItem) =>
          sum + (match item.originalPrice with
            | some o => if o = 0 then 0 else (o - item.price) * item.quantity
            | none => 0)) := by
      funext sum item
      cases h : item.originalPrice with
      | none => simp [jsTruthyNum, h]
      | some o =>
        by_cases ho : o = 0 <;> simp [jsTruthyNum, h, ho]
    simp only [summary, claimedSavingsNonzero, hfun]
    rw [foldl_add_map
      (fun (item : CartItem) => (match item.originalPrice with
        | some o => if o = 0 then 0 else (o - item.price) * item.quantity
        | none => 0))]
    simp

/-!  Claim C5: the derived all-selected flag. -/

/-- The flag agrees with the derived value right after
`updateSelectAllState`. -/
theorem selectAllInvariant_updateSelectAllState (s : CartState) :
    selectAllInvariant (updateSelectAllState s) := by
  unfold selectAllInvariant updateSelectAllState claimedSelectAll
  by_cases h : s.items.length = 0
  · simp [h, List.length_eq_zero.mp h]
  · have hne : ¬ s.items.isEmpty := by
      cases hi : s.items with
      | nil => exact absurd (by simp [hi]) h
      | cons a l => simp [hi]
    simp [h, hne]

/-- The state reached by adding the first line to an empty cart. -/
def firstAddState : CartState :=
  { items := [mkNewItem 1 sampleProduct 1 none none], selectAll := false }

/-- C5 (counterexample): `addToCart` does not recompute `selectAll`:
adding the first (automatically selected) line to an empty cart leaves
the flag `false` while the AND over all items is `true`. -/
theorem cart_selectAll_claim_false :
    addToCart { items := [], selectAll := false } sampleProduct 1 none none
        1 = Except.ok firstAddState ∧
    ¬ selectAllInvariant firstAddState := by
  constructor
  · rfl
  · unfold selectAllInvariant
    decide

/-- C5 (amended): the flag equals the AND over all items (false on an
empty cart) after the operations that recompute it —
`toggleItemSelection`, `clearCart`, `clearSelectedItems`, and
`toggleSelectAll` on a nonempty cart. -/
theorem cart_selectAll_recomputed (s : CartState) (itemId : Int)
    (sel : Option Bool) :
    selectAllInvariant (toggleItemSelection s itemId sel) ∧
    selectAllInvariant (clearCart s) ∧
    selectAllInvariant (clearSelectedItems s) ∧
    (s.items ≠ [] → selectAllInvariant (toggleSelectAll s sel)) := by
  refine ⟨?_, ?_, ?_, ?_⟩
  · unfold toggleItemSelection
    exact selectAllInvariant_updateSelectAllState _
  · simp [selectAllInvariant, clearCart, claimedSelectAll]
  · unfold clearSelectedItems
    exact selectAllInvariant_updateSelectAllState _
  · intro hne
    unfold selectAllInvariant toggleSelectAll claimedSelectAll
    have hmapne : s.items.map
        (fun item => { item with selected := sel.getD (!s.selectAll) }) ≠
        [] := by
      cases hi : s.items with
      | nil => exact absurd hi hne
      | cons a l => simp [hi]
    have hisEmpty : (s.items.map
        (fun item =>
          { item with selected := sel.getD (!s.selectAll) })).isEmpty =
        false := by
      cases hm : s.items.map
          (fun item => { item with selected := sel.getD (!s.selectAll) }) with
      | nil => exact absurd hm hmapne
      | cons a l => simp
    simp only [hisEmpty, List.all_map, Bool.not_false, Bool.true_and]
    rw [show ((fun (item : CartItem) => item.selected) ∘
        fun item => { item with selected := sel.getD (!s.selectAll) }) =
        (fun (_ : CartItem) => sel.getD (!s.selectAll)) from rfl]
    exact (all_const_of_ne_nil s.items hne _).symm

/-- C5 (witness): the amended theorem applied to a one-line cart. -/
theorem cart_selectAll_recomputed_witness :
    ({ items := [itemA], selectAll := false } : CartState).items ≠ [] ∧
    selectAllInvariant
      (toggleSelectAll { items := [itemA], selectAll := false }
        (some true)) :=
  ⟨by decide,
    (cart_selectAll_recomputed { items := [itemA], selectAll := false } 0
      (some true)).2.2.2 (by decide)⟩

/-!  Claim C10: the stock check of `addToCart`. -/

/-- C10: `addToCart` throws exactly when a line with the same
product+variant identity exists and its quantity plus the requested one
exceeds that line's stock; with no matching line it appends the new line
with exactly the requested quantity, unchecked. -/
theorem addToCart_stock_check (s : CartState) (product : ProductInput)
    (quantity : Int) (skuId : Option Int) (skuName : Option String)
    (newId : Int) :
    ((∃ e, addToCart s product quantity skuId skuName newId =
        Except.error e) ↔
      ∃ it, jsFind (fun item => item.productId == product.productId &&
          item.skuId == skuId) s.items = some it ∧
        it.stock < it.quantity + quantity) ∧
    (jsFind (fun item => item.productId == product.productId &&
        item.skuId == skuId) s.items = none →
      addToCart s product quantity skuId skuName newId =
        Except.ok { s with items :=
          s.items ++ [mkNewItem newId product quantity skuId skuName] }) := by
  constructor
  · cases h : jsFind (fun item => item.productId == product.productId &&
        item.skuId == skuId) s.items with
    | none => simp [addToCart, h]
    | some it =>
      by_cases hle : it.quantity + quantity ≤ it.stock
      · constructor
        · rintro ⟨e, he⟩
          simp [addToCart, h, hle] at he
        · rintro ⟨it2, hit2, hlt⟩
          injection hit2 with heq
          subst heq
          exact absurd hlt (not_lt.mpr hle)
      · constructor
        · intro _
          exact ⟨it, rfl, by omega⟩
        · intro _
          refine ⟨"库存不足", ?_⟩
          simp [addToCart, h, hle]
  · intro h
    simp [addToCart, h]

/-- The state reached by the over-stock first add of the C10 witness. -/
def overStockAddState : CartState :=
  { items := [mkNewItem 4 sampleProduct 9 none none], selectAll := false }

/-- C10 (witness): on an empty cart (no matching line) the requested
quantity 9 is appended although it exceeds the product's stock 5. -/
theorem addToCart_stock_check_witness :
    jsFind (fun item => item.productId == sampleProduct.productId &&
        item.skuId == (none : Option Int))
      ({ items := [], selectAll := false } : CartState).items = none ∧
    addToCart { items := [], selectAll := false } sampleProduct 9 none none
        4 = Except.ok overStockAddState :=
  ⟨rfl,
    (addToCart_stock_check { items := [], selectAll := false } sampleProduct
      9 none none 4).2 rfl⟩

/-!  Claim C4: `updateQuantity`. -/

theorem jsFind_some_prop {α : Type} {p : α → Bool} {l : List α} {it : α}
    (h : jsFind p l = some it) : p it = true := by
  induction l with
  | nil => simp [jsFind] at h
  | cons a l ih =>
    by_cases ha : p a = true
    · simp [jsFind, ha] at h
      subst h
      exact ha
    · simp [jsFind, ha] at h
      exact ih h

theorem jsFind_eq_none_of_countP {α : Type} {p : α → Bool} {l : List α}
    (h : l.countP p = 0) : jsFind p l = none := by
  induction l with
  | nil => rfl
  | cons a l ih =>
    rw [List.countP_cons] at h
    by_cases ha : p a = true
    · simp [ha] at h
    · simp only [jsFind, ha, if_false, Bool.false_eq_true, if_neg,
        not_false_iff]
      exact ih (by simpa [ha] using h)

theorem jsFind_jsRemoveFirst {α : Type} {p : α → Bool} {l : List α}
    (h : l.countP p ≤ 1) : jsFind p (jsRemoveFirst p l) = none := by
  induction l with
  | nil => rfl
  | cons a l ih =>
    rw [List.countP_cons] at h
    by_cases ha : p a = true
    · simp only [jsRemoveFirst, ha, if_pos]
      apply jsFind_eq_none_of_countP
      rw [if_pos ha] at h
      omega
    · simp only [jsRemoveFirst, ha, Bool.false_eq_true, if_neg,
        not_false_iff, jsFind]
      apply ih
      rw [if_neg ha] at h
      omega

theorem jsFind_jsSetFirst {α : Type} {p : α → Bool} {f : α → α}
    {l : List α} {it : α} (h : jsFind p l = some it)
    (hf : p (f it) = true) :
    jsFind p (jsSetFirst p f l) = some (f it) := by
  induction l with
  | nil => simp [jsFind] at h
  | cons a l ih =>
    by_cases ha : p a = true
    · simp [jsFind, ha] at h
      subst h
      simp [jsSetFirst, ha, jsFind, hf]
    · simp only [jsFind, ha, Bool.false_eq_true, if_neg, not_false_iff]
        at h
      simp only [jsSetFirst, ha, Bool.false_eq_true, if_neg, not_false_iff,
        jsFind]
      exact ih h

theorem countP_le_one_of_nodup_ids (items : List CartItem) (itemId : Int)
    (h : (items.map (fun item => item.id)).Nodup) :
    items.countP (fun item => item.id == itemId) ≤ 1 := by
  induction items with
  | nil => simp
  | cons a l ih =>
    rw [List.map_cons, List.nodup_cons] at h
    rw [List.countP_cons]
    by_cases ha : (a.id == itemId) = true
    · have hz : l.countP (fun item => item.id == itemId) = 0 := by
        rw [List.countP_eq_zero]
        intro b hb hbid
        apply h.1
        rw [List.mem_map]
        refine ⟨b, hb, ?_⟩
        have h1 : b.id = itemId := by simpa using hbid
        have h2 : a.id = itemId := by simpa using ha
        rw [h1, h2]
      simp [ha, hz]
    · simp only [ha, if_neg, not_false_iff, Bool.false_eq_true,
        Nat.add_zero]
      exact ih h.2

/-- C4 (amended): the claim holds on every cart whose line ids are
pairwise distinct (duplicated ids — possible because ids are minted from
a millisecond clock — make "the line with id A" ambiguous). -/
theorem updateQuantity_spec_nodup (s : CartState) (itemId quantity : Int)
    (hnd : (s.items.map (fun item => item.id)).Nodup) :
    claimC4At s itemId quantity := by
  intro it hfind
  have hcount := countP_le_one_of_nodup_ids s.items itemId hnd
  refine ⟨?_, ?_, ?_⟩
  · intro hq
    refine ⟨removeFromCart s itemId, ?_, ?_⟩
    · simp [updateQuantity, hfind, hq]
    · show jsFind _ (removeFromCart s itemId).items = none
      simp only [removeFromCart]
      exact jsFind_jsRemoveFirst hcount
  · intro h0 hst
    have hq : ¬ quantity ≤ 0 := by omega
    simp only [updateQuantity, hfind, if_neg hq, if_pos hst]
    have hp := @jsFind_some_prop CartItem (fun item => item.id == itemId)
      s.items it hfind
    exact ⟨_, rfl, jsFind_jsSetFirst hfind hp⟩
  · intro h0 hlt
    have hq : ¬ quantity ≤ 0 := by omega
    have hst : ¬ quantity ≤ it.stock := by omega
    simp [updateQuantity, hfind, hq, hst]

/-- Duplicate-id cart used by the C4 counterexample. -/
def dupState : CartState :=
  { items := [itemDup1, itemDup2], selectAll := false }

/-- C4 (counterexample): with two lines sharing id 7, removal via
`updateQuantity(7, 0)` drops only the first, so a later lookup of id 7
still succeeds — the claim as stated fails on such a cart. -/
theorem updateQuantity_remove_claim_false : ¬ claimC4At dupState 7 0 := by
  intro h
  obtain ⟨s2, h1, h2⟩ := (h itemDup1 rfl).1 le_rfl
  have hc : updateQuantity dupState 7 0 =
      Except.ok { items := [itemDup2], selectAll := false } := rfl
  rw [hc] at h1
  injection h1 with heq
  rw [← heq] at h2
  exact absurd h2 (by decide)

/-- C4 (witness): the amended theorem applied to a one-line cart with
distinct ids. -/
theorem updateQuantity_spec_nodup_witness :
    (({ items := [itemA], selectAll := false } : CartState).items.map
      (fun item => item.id)).Nodup ∧
    claimC4At { items := [itemA], selectAll := false } 1 0 :=
  ⟨by decide,
    updateQuantity_spec_nodup { items := [itemA], selectAll := false } 1 0
      (by decide)⟩

/-!  Claim C2: sequences of `addToCart` calls with one identity. -/

/-- The singleton cart after one `addToCart` of this identity, holding
quantity `a`. -/
def singleLineState (product : ProductInput) (skuId : Option Int)
    (skuName : Option String) (a : Int) : CartState :=
  { items := [mkNewItem 0 product a skuId skuName], selectAll := false }

theorem addToCart_empty (product : ProductInput) (skuId : Option Int)
    (skuName : Option String) (q : Int) :
    addToCart { items := [], selectAll := false } product q skuId skuName
      0 = Except.ok (singleLineState product skuId skuName q) := rfl

theorem addToCart_single (product : ProductInput) (skuId : Option Int)
    (skuName : Option String) (a q : Int) :
    addToCart (singleLineState product skuId skuName a) product q skuId
        skuName 0 =
      if a + q ≤ product.stock then
        Except.ok (singleLineState product skuId skuName (a + q))
      else
        Except.error ("库存不足") := by
  simp only [addToCart, singleLineState, jsFind, mkNewItem,
    beq_self_eq_true, Bool.and_self, if_pos, jsSetFirst]

theorem runAdds_single (product : ProductInput) (skuId : Option Int)
    (skuName : Option String) (qs : List Int) (a : Int) :
    runAdds product skuId skuName (singleLineState product skuId skuName a)
        qs =
      match firstExceedFrom product.stock a qs with
      | none => (singleLineState product skuId skuName (a + qs.sum), none)
      | some k =>
        (singleLineState product skuId skuName (a + (qs.take k).sum),
          some k) := by
  induction qs generalizing a with
  | nil => simp [runAdds, firstExceedFrom]
  | cons q qs ih =>
    by_cases hle : a + q ≤ product.stock
    · have hnlt : ¬ product.stock < a + q := by omega
      cases hE : firstExceedFrom product.stock (a + q) qs with
      | none =>
        simp [runAdds, addToCart_single, hle, ih, hE, firstExceedFrom,
          hnlt, add_assoc]
      | some k =>
        simp [runAdds, addToCart_single, hle, ih, hE, firstExceedFrom,
          hnlt, List.take_succ_cons, add_assoc]
    · have hlt : product.stock < a + q := by omega
      simp [runAdds, addToCart_single, hle, firstExceedFrom, hlt]

theorem firstExceedFrom_take {stock a : Int} {qs : List Int} {k : Nat}
    (h : firstExceedFrom stock a qs = some k) :
    firstExceedFrom stock a (qs.take k) = none := by
  induction qs generalizing a k with
  | nil => simp [firstExceedFrom] at h
  | cons q qs ih =>
    by_cases hlt : stock < a + q
    · simp [firstExceedFrom, hlt] at h
      subst h
      rfl
    · simp only [firstExceedFrom, hlt, if_neg, not_false_iff] at h
      cases hE : firstExceedFrom stock (a + q) qs with
      | none => rw [hE] at h; simp at h
      | some k2 =>
        rw [hE] at h
        simp only [Option.map] at h
        injection h with h
        subst h
        simp [firstExceedFrom, hlt, ih hE]

/-- C2 (amended): provided the first requested quantity does not itself
exceed stock (the first add is never stock-checked), the claimed
disjunction holds: the line accumulates the full requested sum, or the
first call at which the running total would exceed stock is the one that
rejects, leaving the cart as it was before that call. -/
theorem addToCart_sequence_spec (product : ProductInput)
    (skuId : Option Int) (skuName : Option String) (q : Int)
    (qs : List Int) (hfirst : q ≤ product.stock) :
    claimC2 product skuId skuName (q :: qs) := by
  simp only [claimC2]
  have hnlt : ¬ product.stock < 0 + q := by omega
  cases hE : firstExceedFrom product.stock q qs with
  | none =>
    have hr : runAdds product skuId skuName
        { items := [], selectAll := false } (q :: qs) =
        (singleLineState product skuId skuName (q + qs.sum), none) := by
      simp [runAdds, addToCart_empty, runAdds_single, hE]
    rw [hr]
    left
    simp [firstLineQty, singleLineState, mkNewItem]
  | some k =>
    have hr : runAdds product skuId skuName
        { items := [], selectAll := false } (q :: qs) =
        (singleLineState product skuId skuName (q + (qs.take k).sum),
          some (k + 1)) := by
      simp [runAdds, addToCart_empty, runAdds_single, hE]
    rw [hr]
    right
    refine ⟨k + 1, ?_, rfl, ?_⟩
    · simp only [firstExceedFrom]
      rw [if_neg hnlt, zero_add, hE]
      rfl
    · rw [List.take_succ_cons]
      simp [runAdds, addToCart_empty, runAdds_single, firstExceedFrom_take hE]

/-- Product with stock 1 for the C2 counterexample. -/
def lowStockProduct : ProductInput := { sampleProduct with stock := 1 }

/-- C2 (counterexample): with stock 1 and requested quantities [2, 1],
the running total first exceeds stock already at call 0, but the
unchecked first add succeeds with quantity 2; the rejection only happens
at call 1, and the final quantity 2 is not the requested sum 3 — the
claimed disjunction fails. -/
theorem addToCart_sequence_claim_false :
    ¬ claimC2 lowStockProduct none none [2, 1] := by
  intro h
  simp only [claimC2] at h
  rcases h with h | ⟨k, hk, hsnd, hfst⟩
  · exact absurd h (by decide)
  · have hfe : firstExceedFrom lowStockProduct.stock 0 [2, 1] = some 0 :=
      by decide
    rw [hfe] at hk
    injection hk with hk0
    subst hk0
    exact absurd hsnd (by decide)

/-- C2 (witness): the amended theorem applied to stock 5 and requested
quantities [1, 2]. -/
theorem addToCart_sequence_spec_witness :
    (1 : Int) ≤ sampleProduct.stock ∧
    claimC2 sampleProduct none none [1, 2] :=
  ⟨by decide,
    addToCart_sequence_spec sampleProduct none none 1 [2] (by decide)⟩

/-!  Claim C7: price sorts. -/

theorem mem_jsInsert {α : Type} (cmp : α → α → Int) (x a : α)
    (l : List α) : a ∈ jsInsert cmp x l ↔ a = x ∨ a ∈ l := by
  induction l with
  | nil => simp [jsInsert]
  | cons y l ih =>
    by_cases h : cmp x y ≤ 0
    · simp [jsInsert, h]
    · simp only [jsInsert, h, if_neg, not_false_iff, List.mem_cons, ih]
      tauto

theorem mem_jsSort {α : Type} (cmp : α → α → Int) (a : α) (l : List α) :
    a ∈ jsSort cmp l ↔ a ∈ l := by
  induction l with
  | nil => simp [jsSort]
  | cons x l ih => simp [jsSort, mem_jsInsert, ih]

theorem pairwise_jsInsert_priceAsc (x : Product) (l : List Product)
    (h : l.Pairwise (fun a b => a.price ≤ b.price)) :
    (jsInsert cmpPriceAsc x l).Pairwise (fun a b => a.price ≤ b.price) := by
  induction l with
  | nil => simp [jsInsert]
  | cons y l ih =>
    rw [List.pairwise_cons] at h
    by_cases hc : cmpPriceAsc x y ≤ 0
    · have hxy : x.price ≤ y.price := by
        simpa [cmpPriceAsc, sub_nonpos] using hc
      simp only [jsInsert, hc, if_pos]
      rw [List.pairwise_cons]
      constructor
      · intro b hb
        rcases List.mem_cons.mp hb with rfl | hb
        · exact hxy
        · exact le_trans hxy (h.1 b hb)
      · rw [List.pairwise_cons]
        exact h
    · have hyx : y.price ≤ x.price := by
        have h2 : ¬ x.price - y.price ≤ 0 := by
          simpa [cmpPriceAsc] using hc
        omega
      simp only [jsInsert, hc, if_neg, not_false_iff]
      rw [List.pairwise_cons]
      constructor
      · intro b hb
        rcases (mem_jsInsert cmpPriceAsc x b l).mp hb with rfl | hb
        · exact hyx
        · exact h.1 b hb
      · exact ih h.2

theorem pairwise_jsSort_priceAsc (l : List Product) :
    (jsSort cmpPriceAsc l).Pairwise (fun a b => a.price ≤ b.price) := by
  induction l with
  | nil => simp [jsSort]
  | cons x l ih => exact pairwise_jsInsert_priceAsc x _ ih

theorem jsInsertDesc_skip (x : Product) (m t : List Product)
    (hm : ∀ a ∈ m, x.price < a.price) :
    jsInsert cmpPriceDesc x (m ++ t) = m ++ jsInsert cmpPriceDesc x t := by
  induction m with
  | nil => simp
  | cons a m ih =>
    have hax := hm a (List.mem_cons_self a m)
    have hc : ¬ cmpPriceDesc x a ≤ 0 := by
      simp only [cmpPriceDesc, sub_nonpos]
      omega
    simp only [List.cons_append, jsInsert, hc, if_neg, not_false_iff]
    exact congrArg (List.cons a)
      (ih (fun b hb => hm b (List.mem_cons_of_mem a hb)))

theorem jsInsertDesc_last (x y : Product) (m : List Product)
    (hyx : y.price ≤ x.price) :
    jsInsert cmpPriceDesc x (m ++ [y]) =
      jsInsert cmpPriceDesc x m ++ [y] := by
  induction m with
  | nil =>
    have hc : cmpPriceDesc x y ≤ 0 := by
      simp only [cmpPriceDesc, sub_nonpos]
      omega
    simp [jsInsert, hc]
  | cons a m ih =>
    by_cases hc : cmpPriceDesc x a ≤ 0
    · simp [jsInsert, hc]
    · simp only [List.cons_append, jsInsert, hc, if_neg, not_false_iff]
      exact congrArg (List.cons a) ih

theorem reverse_jsInsertAsc (x : Product) (l : List Product)
    (hs : l.Pairwise (fun a b => a.price ≤ b.price))
    (hne : ∀ a ∈ l, x.price ≠ a.price) :
    (jsInsert cmpPriceAsc x l).reverse =
      jsInsert cmpPriceDesc x l.reverse := by
  induction l with
  | nil => simp [jsInsert]
  | cons y l ih =>
    rw [List.pairwise_cons] at hs
    by_cases hc : cmpPriceAsc x y ≤ 0
    · have hxy : x.price ≤ y.price := by
        simpa [cmpPriceAsc, sub_nonpos] using hc
      have hxy2 : x.price < y.price :=
        lt_of_le_of_ne hxy (hne y (List.mem_cons_self y l))
      have hall : ∀ a ∈ l.reverse ++ [y], x.price < a.price := by
        intro a ha
        rcases List.mem_append.mp ha with ha | ha
        · exact lt_of_lt_of_le hxy2 (hs.1 a (List.mem_reverse.mp ha))
        · rcases List.mem_singleton.mp ha with rfl
          exact hxy2
      simp only [jsInsert, hc, if_pos, List.reverse_cons]
      rw [show l.reverse ++ [y] ++ [x] =
          (l.reverse ++ [y]) ++ jsInsert cmpPriceDesc x [] from rfl]
      rw [← jsInsertDesc_skip x (l.reverse ++ [y]) [] hall]
      rw [List.append_nil]
    · have hyx : y.price < x.price := by
        have h2 : ¬ x.price - y.price ≤ 0 := by
          simpa [cmpPriceAsc] using hc
        omega
      simp only [jsInsert, hc, if_neg, not_false_iff, List.reverse_cons]
      rw [ih hs.2 (fun a ha => hne a (List.mem_cons_of_mem y ha))]
      rw [jsInsertDesc_last x y l.reverse (le_of_lt hyx)]

/-- C7 (amended): when no two products in the list share a price,
sorting by `price_asc` and reversing equals sorting by `price_desc`.
(With a tie the stable sort keeps the original relative order in both
directions, so the reversal flips tied neighbours.) -/
theorem price_sort_reverse_eq_desc (l : List Product)
    (h : l.Pairwise (fun a b => a.price ≠ b.price)) : claimC7 l := by
  unfold claimC7
  induction l with
  | nil => rfl
  | cons x l ih =>
    rw [List.pairwise_cons] at h
    show (jsInsert cmpPriceAsc x (jsSort cmpPriceAsc l)).reverse =
      jsInsert cmpPriceDesc x (jsSort cmpPriceDesc l)
    rw [reverse_jsInsertAsc x _ (pairwise_jsSort_priceAsc l)
      (fun a ha => h.1 a ((mem_jsSort cmpPriceAsc a l).mp ha))]
    rw [ih h.2]

/-- C7 (counterexample): two distinct products with equal prices: the
stable ascending sort keeps `[A, B]`, whose reversal `[B, A]` differs
from the stable descending sort `[A, B]`. -/
theorem price_sort_reverse_claim_false : ¬ claimC7 [prodA, prodB] := by
  unfold claimC7
  decide

/-- C7 (witness): the amended theorem applied to a two-element list with
distinct prices. -/
theorem price_sort_reverse_eq_desc_witness :
    ([prodA, prodC].Pairwise (fun a b => a.price ≠ b.price)) ∧
    claimC7 [prodA, prodC] :=
  ⟨by decide, price_sort_reverse_eq_desc [prodA, prodC] (by decide)⟩

/-!  Claim C6: conjunctive filtering and intersection. -/

theorem mem_applySort (sortBy : Option SortBy) (l : List Product)
    (p : Product) : p ∈ applySort sortBy l ↔ p ∈ l := by
  cases sortBy with
  | none => simp [applySort, mem_jsSort]
  | some sb => cases sb <;> simp [applySort, mem_jsSort]

theorem mem_keywordStage (f : SearchFilters) (l : List Product)
    (p : Product) :
    p ∈ keywordStage f.keyword l ↔ p ∈ l ∧ keywordPred f p = true := by
  unfold keywordStage keywordPred
  cases f.keyword with
  | none => simp
  | some k =>
    by_cases hk : k = ""
    · simp [hk]
    · simp [hk, List.mem_filter]

theorem mem_categoryStage (f : SearchFilters) (l : List Product)
    (p : Product) :
    p ∈ categoryStage f.categoryId l ↔ p ∈ l ∧ categoryPred f p = true := by
  unfold categoryStage categoryPred
  cases f.categoryId with
  | none => simp
  | some c =>
    by_cases hc : c = 0
    · simp [hc]
    · simp [hc, List.mem_filter]

theorem mem_minPriceStage (f : SearchFilters) (l : List Product)
    (p : Product) :
    p ∈ minPriceStage f.minPrice l ↔ p ∈ l ∧ minPricePred f p = true := by
  unfold minPriceStage minPricePred
  cases f.minPrice with
  | none => simp
  | some mn => simp [List.mem_filter]

theorem mem_maxPriceStage (f : SearchFilters) (l : List Product)
    (p : Product) :
    p ∈ maxPriceStage f.maxPrice l ↔ p ∈ l ∧ maxPricePred f p = true := by
  unfold maxPriceStage maxPricePred
  cases f.maxPrice with
  | none => simp
  | some mx => simp [List.mem_filter]

theorem mem_tagsStage (f : SearchFilters) (l : List Product)
    (p : Product) :
    p ∈ tagsStage f.tags l ↔ p ∈ l ∧ tagsPred f p = true := by
  unfold tagsStage tagsPred
  cases f.tags with
  | none => simp
  | some ts =>
    by_cases ht : ts.length > 0
    · simp [ht, List.mem_filter]
    · simp [ht]

theorem mem_filteredProducts (l : List Product) (f : SearchFilters)
    (p : Product) :
    p ∈ filteredProducts l f ↔
      p ∈ l ∧ keywordPred f p = true ∧ categoryPred f p = true ∧
        minPricePred f p = true ∧ maxPricePred f p = true ∧
        tagsPred f p = true := by
  unfold filteredProducts
  rw [mem_applySort, mem_tagsStage, mem_maxPriceStage, mem_minPriceStage,
    mem_categoryStage, mem_keywordStage]
  tauto

theorem keywordPred_merge (f g : SearchFilters) (p : Product)
    (h : f.keyword = none ∨ g.keyword = none) :
    keywordPred (mergeFilters f g) p =
      (keywordPred f p && keywordPred g p) := by
  rcases h with h | h
  · simp [keywordPred, mergeFilters, mergeOpt, h]
  · cases hf : f.keyword <;>
      simp [keywordPred, mergeFilters, mergeOpt, h, hf]

theorem categoryPred_merge (f g : SearchFilters) (p : Product)
    (h : f.categoryId = none ∨ g.categoryId = none) :
    categoryPred (mergeFilters f g) p =
      (categoryPred f p && categoryPred g p) := by
  rcases h with h | h
  · simp [categoryPred, mergeFilters, mergeOpt, h]
  · cases hf : f.categoryId <;>
      simp [categoryPred, mergeFilters, mergeOpt, h, hf]

theorem minPricePred_merge (f g : SearchFilters) (p : Product)
    (h : f.minPrice = none ∨ g.minPrice = none) :
    minPricePred (mergeFilters f g) p =
      (minPricePred f p && minPricePred g p) := by
  rcases h with h | h
  · simp [minPricePred, mergeFilters, mergeOpt, h]
  · cases hf : f.minPrice <;>
      simp [minPricePred, mergeFilters, mergeOpt, h, hf]

theorem maxPricePred_merge (f g : SearchFilters) (p : Product)
    (h : f.maxPrice = none ∨ g.maxPrice = none) :
    maxPricePred (mergeFilters f g) p =
      (maxPricePred f p && maxPricePred g p) := by
  rcases h with h | h
  · simp [maxPricePred, mergeFilters, mergeOpt, h]
  · cases hf : f.maxPrice <;>
      simp [maxPricePred, mergeFilters, mergeOpt, h, hf]

theorem tagsPred_merge (f g : SearchFilters) (p : Product)
    (h : f.tags = none ∨ g.tags = none) :
    tagsPred (mergeFilters f g) p = (tagsPred f p && tagsPred g p) := by
  rcases h with h | h
  · simp [tagsPred, mergeFilters, mergeOpt, h]
  · cases hf : f.tags <;>
      simp [tagsPred, mergeFilters, mergeOpt, h, hf]

/-- C6: membership in the filtered view is the conjunction of the five
per-criterion predicates; a pure price-range filter keeps exactly the
products inside the inclusive bounds; and filtering by two
criteria-disjoint filter objects at once keeps exactly the products kept
by each alone (intersection, as sets of products). -/
theorem filteredProducts_conjunctive (l : List Product) (f : SearchFilters)
    (p : Product) :
    (p ∈ filteredProducts l f ↔
      p ∈ l ∧ keywordPred f p = true ∧ categoryPred f p = true ∧
        minPricePred f p = true ∧ maxPricePred f p = true ∧
        tagsPred f p = true) ∧
    (∀ mn mx : Int,
      p ∈ filteredProducts l { minPrice := some mn, maxPrice := some mx } ↔
        p ∈ l ∧ mn ≤ p.price ∧ p.price ≤ mx) ∧
    (∀ g : SearchFilters, MergeableFilters f g →
      (p ∈ filteredProducts l (mergeFilters f g) ↔
        p ∈ filteredProducts l f ∧ p ∈ filteredProducts l g)) := by
  refine ⟨mem_filteredProducts l f p, ?_, ?_⟩
  · intro mn mx
    rw [mem_filteredProducts]
    simp [keywordPred, categoryPred, minPricePred, maxPricePred, tagsPred,
      ge_iff_le]
  · intro g hm
    obtain ⟨h1, h2, h3, h4, h5⟩ := hm
    rw [mem_filteredProducts, mem_filteredProducts, mem_filteredProducts,
      keywordPred_merge f g p h1, categoryPred_merge f g p h2,
      minPricePred_merge f g p h3, maxPricePred_merge f g p h4,
      tagsPred_merge f g p h5]
    simp only [Bool.and_eq_true]
    tauto

/-- C6 (witness): the theorem applied to a concrete pair of
criteria-disjoint filters (a lower and an upper price bound). -/
theorem filteredProducts_conjunctive_witness :
    MergeableFilters { minPrice := some 5 } { maxPrice := some 15 } ∧
    (prodA ∈ filteredProducts [prodA, prodC]
        (mergeFilters { minPrice := some 5 } { maxPrice := some 15 }) ↔
      prodA ∈ filteredProducts [prodA, prodC] { minPrice := some 5 } ∧
      prodA ∈ filteredProducts [prodA, prodC] { maxPrice := some 15 }) :=
  ⟨⟨Or.inl rfl, Or.inl rfl, Or.inr rfl, Or.inl rfl, Or.inl rfl⟩,
    (filteredProducts_conjunctive [prodA, prodC] { minPrice := some 5 }
      prodA).2.2 { maxPrice := some 15 }
      ⟨Or.inl rfl, Or.inl rfl, Or.inr rfl, Or.inl rfl, Or.inl rfl⟩⟩

/-!  Claim C1: the request interceptor chain composes left-to-right. -/

theorem executeRequestInterceptors_pure
    (gs : List (RequestConfig → RequestConfig)) (c : RequestConfig) :
    executeRequestInterceptors (gs.map pureRequestInterceptor) c =
      Except.ok (gs.foldl (fun acc g => g acc) c) := by
  induction gs generalizing c with
  | nil => rfl
  | cons g gs ih =>
    simp [executeRequestInterceptors, pureRequestInterceptor, ih]

theorem call_mem_request_snd (h : HttpRequest)
    (transport : RequestConfig → Except JSVal JSVal) (config : UserConfig)
    (p : RequestConfig)
    (hchain : executeRequestInterceptors h.requestInterceptors
      (mergeConfig h config) = Except.ok p) :
    Event.call p ∈ (request h transport config).snd := by
  unfold request
  simp only [hchain]
  cases htr : transport p with
  | error e => simp
  | ok resp =>
    cases hre : executeResponseInterceptors h.responseInterceptors resp with
    | ok r2 => simp [hre]
    | error e => simp [hre]

/-- An `HttpRequest` whose registered request interceptors are the pure
transforms `gs`, in registration order. -/
def withPureInterceptors (baseURL : String)
    (gs : List (RequestConfig → RequestConfig))
    (respInts : List ResponseInterceptor)
    (errInts : List ErrorInterceptor) : HttpRequest :=
  { baseURL := baseURL
    requestInterceptors := gs.map pureRequestInterceptor
    responseInterceptors := respInts
    errorInterceptors := errInts }

/-- C1: with pure request interceptors `g₁ … gₙ` registered in that
order, the interceptor chain succeeds with their left-to-right
composition applied to the merged config, and exactly that composed
config is handed to the transport; in particular a chain of two
interceptors yields `g₂ (g₁ c)`. -/
theorem request_interceptor_chain_composes (baseURL : String)
    (gs : List (RequestConfig → RequestConfig))
    (respInts : List ResponseInterceptor)
    (errInts : List ErrorInterceptor)
    (transport : RequestConfig → Except JSVal JSVal) (config : UserConfig)
    (g1 g2 : RequestConfig → RequestConfig) (c : RequestConfig) :
    executeRequestInterceptors
        (withPureInterceptors baseURL gs respInts errInts).requestInterceptors
        (mergeConfig (withPureInterceptors baseURL gs respInts errInts)
          config) =
      Except.ok (gs.foldl (fun acc g => g acc)
        (mergeConfig (withPureInterceptors baseURL gs respInts errInts)
          config)) ∧
    Event.call (gs.foldl (fun acc g => g acc)
        (mergeConfig (withPureInterceptors baseURL gs respInts errInts)
          config)) ∈
      (request (withPureInterceptors baseURL gs respInts errInts) transport
        config).snd ∧
    executeRequestInterceptors
        [pureRequestInterceptor g1, pureRequestInterceptor g2] c =
      Except.ok (g2 (g1 c)) := by
  refine ⟨executeRequestInterceptors_pure gs _, ?_, rfl⟩
  exact call_mem_request_snd _ transport config _
    (executeRequestInterceptors_pure gs _)

/-!  Claim C9: the loading indicator is hidden on every exit path. -/

theorem loadingVisible_append (l1 l2 : List Event) :
    loadingVisible (l1 ++ l2) = l2.foldl loadingStep (loadingVisible l1) := by
  unfold loadingVisible
  rw [List.foldl_append]

theorem foldl_loadingStep_toastIf (v : Bool) (c : Prop) [Decidable c]
    (m : String) :
    List.foldl loadingStep v (if c then [Event.toast m] else []) = v := by
  split <;> rfl

theorem foldl_loadingStep_hide (v : Bool) :
    List.foldl loadingStep v [Event.hide] = false := rfl

/-- C9: for a request whose (merged) config enables the loading
indicator, the indicator is not visible once `request` finishes, on the
success path and on every failure path (request-, transport- or
response-stage). -/
theorem loading_hidden_on_all_paths (h : HttpRequest)
    (transport : RequestConfig → Except JSVal JSVal) (config : UserConfig)
    (hShow : (mergeConfig h config).showLoading = true) :
    loadingVisible (request h transport config).snd = false := by
  unfold request requestCatch
  cases hch : executeRequestInterceptors h.requestInterceptors
      (mergeConfig h config) with
  | error e =>
    simp only [hch, hShow, if_true]
    rw [loadingVisible_append]
    rw [show loadingVisible [Event.hide] = false from rfl]
    exact foldl_loadingStep_toastIf _ _ _
  | ok p =>
    cases htr : transport p with
    | error e =>
      simp only [hch, htr, hShow, if_true]
      rw [loadingVisible_append, List.foldl_append, foldl_loadingStep_hide]
      exact foldl_loadingStep_toastIf _ _ _
    | ok resp =>
      cases hre : executeResponseInterceptors h.responseInterceptors
          resp with
      | ok r2 =>
        simp only [hch, htr, hre]
        by_cases hp : p.showLoading = true
        · simp only [hp, if_true]
          rfl
        · simp only [hp, Bool.false_eq_true, if_neg, not_false_iff,
            if_false]
          rfl
      | error e =>
        simp only [hch, htr, hre, hShow, if_true]
        rw [loadingVisible_append, List.foldl_append, foldl_loadingStep_hide]
        exact foldl_loadingStep_toastIf _ _ _

/-- Transport fixture: always succeeds with status 200. -/
def okTransport : RequestConfig → Except JSVal JSVal :=
  fun _ => Except.ok (JSVal.resp 200 (JSVal.num 1))

/-- User config fixture asking for the loading indicator. -/
def loadingConfig : UserConfig := { url := "/a", showLoading := some true }

/-- C9 (witness): the theorem applied to the default instance, a
succeeding transport, and a config with `showLoading` on. -/
theorem loading_hidden_on_all_paths_witness :
    (mergeConfig (mkHttpRequest ("") none) loadingConfig).showLoading =
      true ∧
    loadingVisible
      (request (mkHttpRequest ("") none) okTransport loadingConfig).snd =
      false :=
  ⟨rfl, loading_hidden_on_all_paths (mkHttpRequest ("") none) okTransport
    loadingConfig rfl⟩

/-!  Claim C8: status window and error normalization. -/

theorem httpError_msg_ne_empty (t : String) :
    ("HTTP Error: " ++ t) ≠ "" := by
  intro hc
  have hlen := congrArg String.length hc
  rw [String.length_append] at hlen
  rw [show ("HTTP Error: ").length = 12 from rfl] at hlen
  rw [show ("" : String).length = 0 from rfl] at hlen
  omega

theorem executeErrorInterceptors_default (e : JSVal) :
    ∃ m, executeErrorInterceptors [defaultErrorInterceptor] e =
      JSVal.rejected m e :=
  ⟨_, rfl⟩

theorem requestCatch_rejected (h : HttpRequest)
    (hErr : h.errorInterceptors = [defaultErrorInterceptor])
    (merged : RequestConfig) (e : JSVal) :
    ∃ m, (requestCatch h merged e).fst = JSVal.rejected m e := by
  simp only [requestCatch, hErr]
  exact executeErrorInterceptors_default e

theorem request_error_rejected (h : HttpRequest)
    (hErr : h.errorInterceptors = [defaultErrorInterceptor])
    (transport : RequestConfig → Except JSVal JSVal) (config : UserConfig)
    (e : JSVal)
    (hres : (request h transport config).fst = Except.error e) :
    ∃ m cause, e = JSVal.rejected m cause := by
  unfold request at hres
  cases hch : executeRequestInterceptors h.requestInterceptors
      (mergeConfig h config) with
  | error e0 =>
    simp only [hch] at hres
    obtain ⟨m, hm⟩ := requestCatch_rejected h hErr (mergeConfig h config) e0
    injection hres with h2
    rw [hm] at h2
    exact ⟨m, e0, h2.symm⟩
  | ok p =>
    cases htr : transport p with
    | error e0 =>
      simp only [hch, htr] at hres
      obtain ⟨m, hm⟩ :=
        requestCatch_rejected h hErr (mergeConfig h config) e0
      injection hres with h2
      rw [hm] at h2
      exact ⟨m, e0, h2.symm⟩
    | ok resp =>
      cases hre : executeResponseInterceptors h.responseInterceptors
          resp with
      | ok r2 =>
        simp only [hch, htr, hre] at hres
        exact Except.noConfusion hres
      | error e0 =>
        simp only [hch, htr, hre] at hres
        obtain ⟨m, hm⟩ :=
          requestCatch_rejected h hErr (mergeConfig h config) e0
        injection hres with h2
        rw [hm] at h2
        exact ⟨m, e0, h2.symm⟩

/-- C8: the default response interceptor accepts exactly the `[200,300)`
window (returning the body) and throws `HTTP Error: <status>` otherwise;
on the default instance every failure of `request` is re-thrown as the
normalized `{message, error}` value, and a non-2xx status surfaces as
that normalized shape. -/
theorem http_error_normalization (baseURL : String) (token : Option String)
    (config : UserConfig) (sc : Int) (d : JSVal) :
    (200 ≤ sc → sc < 300 →
      defaultResponseInterceptor (JSVal.resp sc d) = Except.ok d) ∧
    (sc < 200 ∨ 300 ≤ sc →
      defaultResponseInterceptor (JSVal.resp sc d) =
        Except.error (JSVal.jsError ("HTTP Error: " ++ toString sc))) ∧
    (∀ (transport : RequestConfig → Except JSVal JSVal) (e : JSVal),
      (request (mkHttpRequest baseURL token) transport config).fst =
        Except.error e → ∃ m cause, e = JSVal.rejected m cause) ∧
    (200 ≤ sc → sc < 300 →
      (request (mkHttpRequest baseURL token)
        (fun _ => Except.ok (JSVal.resp sc d)) config).fst =
        Except.ok d) ∧
    (sc < 200 ∨ 300 ≤ sc →
      (request (mkHttpRequest baseURL token)
        (fun _ => Except.ok (JSVal.resp sc d)) config).fst =
        Except.error (JSVal.rejected ("HTTP Error: " ++ toString sc)
          (JSVal.jsError ("HTTP Error: " ++ toString sc)))) := by
  refine ⟨?_, ?_, ?_, ?_, ?_⟩
  · intro h1 h2
    show (if 200 ≤ sc ∧ sc < 300 then Except.ok d
      else Except.error (JSVal.jsError ("HTTP Error: " ++ toString sc))) =
      Except.ok d
    rw [if_pos (And.intro h1 h2)]
  · intro hout
    show (if 200 ≤ sc ∧ sc < 300 then Except.ok d
      else Except.error (JSVal.jsError ("HTTP Error: " ++ toString sc))) =
      Except.error (JSVal.jsError ("HTTP Error: " ++ toString sc))
    rw [if_neg (by rintro ⟨ha, hb⟩; rcases hout with h | h <;> omega)]
  · intro transport e hres
    exact request_error_rejected (mkHttpRequest baseURL token) rfl
      transport config e hres
  · intro h1 h2
    have hd : defaultResponseInterceptor (JSVal.resp sc d) =
        Except.ok d := by
      show (if 200 ≤ sc ∧ sc < 300 then Except.ok d
        else Except.error (JSVal.jsError ("HTTP Error: " ++ toString sc))) =
        Except.ok d
      rw [if_pos (And.intro h1 h2)]
    obtain ⟨p, hp⟩ : ∃ p, executeRequestInterceptors
        (mkHttpRequest baseURL token).requestInterceptors
        (mergeConfig (mkHttpRequest baseURL token) config) =
        Except.ok p := ⟨_, rfl⟩
    unfold request
    simp [hp, executeResponseInterceptors, hd]
  · intro hout
    have hs : ("HTTP Error: " ++ toString sc) ≠ "" :=
      httpError_msg_ne_empty (toString sc)
    have hd : defaultResponseInterceptor (JSVal.resp sc d) =
        Except.error (JSVal.jsError ("HTTP Error: " ++ toString sc)) := by
      show (if 200 ≤ sc ∧ sc < 300 then Except.ok d
        else Except.error (JSVal.jsError ("HTTP Error: " ++ toString sc))) =
        Except.error (JSVal.jsError ("HTTP Error: " ++ toString sc))
      rw [if_neg (by rintro ⟨ha, hb⟩; rcases hout with h | h <;> omega)]
    have herr : executeErrorInterceptors [defaultErrorInterceptor]
        (JSVal.jsError ("HTTP Error: " ++ toString sc)) =
        JSVal.rejected ("HTTP Error: " ++ toString sc)
          (JSVal.jsError ("HTTP Error: " ++ toString sc)) := by
      simp only [executeErrorInterceptors, defaultErrorInterceptor,
        jsMessage]
      rw [if_pos hs]
    obtain ⟨p, hp⟩ : ∃ p, executeRequestInterceptors
        (mkHttpRequest baseURL token).requestInterceptors
        (mergeConfig (mkHttpRequest baseURL token) config) =
        Except.ok p := ⟨_, rfl⟩
    unfold request requestCatch
    simp [hp, executeResponseInterceptors, hd, herr]
    exact herr

/-- C8 (witness): the theorem applied at status 500 on the default
instance. -/
theorem http_error_normalization_witness :
    ((500 : Int) < 200 ∨ (300 : Int) ≤ 500) ∧
    (request (mkHttpRequest ("") none)
      (fun _ => Except.ok (JSVal.resp 500 (JSVal.num 0)))
      { url := "/x" }).fst =
      Except.error (JSVal.rejected ("HTTP Error: " ++ toString (500 : Int))
        (JSVal.jsError ("HTTP Error: " ++ toString (500 : Int)))) :=
  ⟨Or.inr (by norm_num),
    (http_error_normalization ("") none { url := "/x" } 500
      (JSVal.num 0)).2.2.2.2 (Or.inr (by norm_num))⟩

end LowCodeTaro
